import Mathlib

/-!
# ML LearnLab frontend: Live Run Monitor verification

Shallow embedding of the browser-side run-monitor logic of the ML LearnLab
single-page application: the per-page status reconcilers, the toast
(notification) effects, the metric/chart accumulator with its upsert and
eviction loop, the log accumulators and timestamp stamping, the progress
percentage rendering, the Socket.IO wrapper functions `joinTrainingRoom` /
`leaveTrainingRoom` (both source variants), and the axios response
interceptor.  Events and records carry their JavaScript-visible fields;
absent / `null` / `undefined` fields are `Option` values, JavaScript
falsiness checks on strings and numbers are modelled explicitly.
-/

namespace LearnLab

/-- Run status values appearing across the three live pages
(`AnalyzeData.jsx`, `CleanData.jsx`, `Training.jsx`). -/
inductive RunStatus where
  | LOADING_DETAILS
  | FETCH_FAILED
  | STARTING
  | PENDING_TRIGGER
  | ANALYZING
  | ANALYSIS_FAILED
  | CLEANING
  | CLEANING_SUCCESS
  | CLEANING_FAILED
  | TRAINING
  | SUCCESS
  | FAILED
  | CANCELLED
  | CONNECTING
  | READY
  | UNKNOWN
  deriving DecidableEq, Repr, Fintype

open RunStatus

/-- The terminal statuses of spec section 3: `{SUCCESS, FAILED,
ANALYSIS_FAILED, CLEANING_FAILED, CLEANING_SUCCESS, CANCELLED,
FETCH_FAILED}`. -/
def isTerminal (s : RunStatus) : Bool :=
  s = SUCCESS || s = FAILED || s = ANALYSIS_FAILED || s = CLEANING_FAILED ||
  s = CLEANING_SUCCESS || s = CANCELLED || s = FETCH_FAILED

/-- `AnalyzeData.jsx` line 89: the websocket effect registers listeners only
when the current status is not in its own terminal list (details loaded and
no fetch error assumed, i.e. the page is live). -/
def analyzeListenersActive (s : RunStatus) : Bool :=
  !(s = SUCCESS || s = FAILED || s = ANALYSIS_FAILED || s = CLEANING_SUCCESS ||
    s = CLEANING_FAILED || s = FETCH_FAILED)

/-- `AnalyzeData.jsx` lines 113-122 (`handleStatusUpdate`): accept the new
status unless the previous one is in `{SUCCESS, FAILED, ANALYSIS_FAILED}`
and the new one is not. -/
def analyzeHandleStatusUpdate (prev new : RunStatus) : RunStatus :=
  if (prev = SUCCESS || prev = FAILED || prev = ANALYSIS_FAILED) &&
     !(new = SUCCESS || new = FAILED || new = ANALYSIS_FAILED) then prev
  else new

/-- One `status_update` event on the Analyze page: the handler runs only
while its listeners are registered. -/
def analyzeStatusStep (prev new : RunStatus) : RunStatus :=
  if analyzeListenersActive prev then analyzeHandleStatusUpdate prev new else prev

/-- `Training.jsx` line 98: the websocket effect registers listeners only
when the current status is not in `['SUCCESS', 'FAILED', 'FETCH_FAILED',
'CANCELLED']` (details loaded, task type set, no fetch error assumed). -/
def trainingListenersActive (s : RunStatus) : Bool :=
  !(s = SUCCESS || s = FAILED || s = FETCH_FAILED || s = CANCELLED)

/-- `Training.jsx` lines 200-212 (`onStatusUpdate`): the incoming status is
applied unconditionally (`setRunStatus(newStatus)`), with no terminal
guard. -/
def trainingHandleStatusUpdate (_prev new : RunStatus) : RunStatus := new

/-- One `status_update` event on the Training page. -/
def trainingStatusStep (prev new : RunStatus) : RunStatus :=
  if trainingListenersActive prev then trainingHandleStatusUpdate prev new else prev

/-- `CleanData.jsx` line 88: the websocket effect registers listeners only
when the status is in `['READY', 'CLEANING', 'CLEANING_FAILED',
'CONNECTING']`. -/
def cleanListenersActive (s : RunStatus) : Bool :=
  s = READY || s = CLEANING || s = CLEANING_FAILED || s = CONNECTING

/-- `CleanData.jsx` lines 113-130 (`onStatusUpdate`): statuses outside the
cleaning-relevant set are ignored; inside it, a current status in
`{CLEANING_SUCCESS, CLEANING_FAILED, FAILED}` is kept. -/
def cleanHandleStatusUpdate (prev new : RunStatus) : RunStatus :=
  if new = CLEANING || new = CLEANING_SUCCESS || new = CLEANING_FAILED ||
     new = FAILED then
    if prev = CLEANING_SUCCESS || prev = CLEANING_FAILED || prev = FAILED then prev
    else new
  else prev

/-- One `status_update` event on the Clean page. -/
def cleanStatusStep (prev new : RunStatus) : RunStatus :=
  if cleanListenersActive prev then cleanHandleStatusUpdate prev new else prev

/-! ## Toast (notification) models -/

/-- `Training.jsx` lines 205-211: inside `onStatusUpdate`, a toast fires for
each of these incoming statuses (`SUCCESS` and `CANCELLED` fire a success
toast, `FAILED` / `ANALYSIS_FAILED` / `CLEANING_FAILED` an error toast). -/
def trainingToastOnStatus (s : RunStatus) : Bool :=
  s = SUCCESS || s = FAILED || s = ANALYSIS_FAILED || s = CLEANING_FAILED ||
  s = CANCELLED

/-- One `status_update` event on the Training page, tracking the number of
terminal-status toasts fired so far.  The handler fires whenever the
listeners are registered; the toast is emitted on every matching event. -/
def trainingStatusToastStep (st : RunStatus × Nat) (u : RunStatus) :
    RunStatus × Nat :=
  if trainingListenersActive st.1 then
    (u, st.2 + (if trainingToastOnStatus u then 1 else 0))
  else st

/-- Clean page notification state: reconciled status, the
`toastShownRef.current` flags, and counters of fired toasts. -/
structure CleanToastState where
  status : RunStatus
  successShown : Bool := false
  errorShown : Bool := false
  successToasts : Nat := 0
  errorToasts : Nat := 0
  deriving DecidableEq, Repr

/-- `CleanData.jsx` lines 166-174: the toast effect runs on each status
change, guarded by the `toastShownRef` flags. -/
def cleanToastEffect (st : CleanToastState) : CleanToastState :=
  if st.status = CLEANING_SUCCESS && !st.successShown then
    { st with successShown := true, successToasts := st.successToasts + 1 }
  else if st.status = CLEANING_FAILED && !st.errorShown then
    { st with errorShown := true, errorToasts := st.errorToasts + 1 }
  else st

/-- One `status_update` event on the Clean page followed by the toast
effect observing the resulting status. -/
def cleanToastStep (st : CleanToastState) (u : RunStatus) : CleanToastState :=
  cleanToastEffect { st with status := cleanStatusStep st.status u }

/-- A Clean page lifetime: mount with status `s0` and fresh toast flags (the
toast effect runs once on mount), then consume a sequence of `status_update`
events. -/
def cleanPageToasts (s0 : RunStatus) (events : List RunStatus) :
    CleanToastState :=
  events.foldl cleanToastStep (cleanToastEffect { status := s0 })

/-- Invariant tying each toast counter to its `toastShownRef` flag: a
counter can only be positive once its flag is set, and never exceeds 1. -/
def CleanToastInv (st : CleanToastState) : Prop :=
  st.successToasts ≤ (if st.successShown then 1 else 0) ∧
  st.errorToasts ≤ (if st.errorShown then 1 else 0)

/-! ## Metric / chart accumulator (`Training.jsx` `onMetric`) -/

/-- One chart series: x labels plus the `Train` and `Val` datasets.  Metric
payload values are opaque scalars, modelled as `Int`; a stored `null` is
`none`. -/
structure Series where
  labels : List Int
  train : List (Option Int)
  val : List (Option Int)
  deriving DecidableEq, Repr

/-- The pair of chart series kept in `metricData` state. -/
structure ChartState where
  primary : Series
  secondary : Series
  deriving DecidableEq, Repr

/-- `Training.jsx` lines 27-34: `initialChartData` has empty labels and two
empty datasets. -/
def initialChartData : Series := ⟨[], [], []⟩

/-- Initial `metricData` state: both series empty. -/
def initialMetricData : ChartState := ⟨initialChartData, initialChartData⟩

/-- A `training_metric` event.  Absent fields are `none`; `step_name` and
other display-only fields are not modelled. -/
structure Metric where
  epoch : Option Int := none
  estimator : Option Int := none
  iteration : Option Int := none
  total_epochs : Option Int := none
  total_estimators : Option Int := none
  total_iterations : Option Int := none
  train_accuracy : Option Int := none
  val_accuracy : Option Int := none
  train_loss : Option Int := none
  val_loss : Option Int := none
  train_r2 : Option Int := none
  val_r2 : Option Int := none
  train_rmse : Option Int := none
  val_rmse : Option Int := none
  timestamp : Option String := none
  deriving DecidableEq, Repr

/-- The `progress` state object of `Training.jsx` (field `step_name`
omitted).  Fields never written are `none` (JavaScript `undefined`). -/
structure ProgressState where
  epoch : Option Int := none
  current_step : Option Int := none
  total_epochs : Option Int := none
  total_steps : Option Int := none
  batch : Option Int := none
  total_batches : Option Int := none
  timestamp : Option String := none
  deriving DecidableEq, Repr

/-- `Training.jsx` line 25: initial progress state
`{ epoch: 0, total_epochs: 0, batch: 0, total_batches: 0 }`. -/
def trainingInitialProgress : ProgressState :=
  { epoch := some 0, total_epochs := some 0, batch := some 0,
    total_batches := some 0 }

/-- `metric.epoch ?? metric.estimator ?? metric.iteration ??
progressCurrentStep ?? 0` (`Training.jsx` line 146), abstracted over the
current `progress.current_step`. -/
def resolveLabelOpt (p : Option Int) (m : Metric) : Int :=
  (m.epoch <|> m.estimator <|> m.iteration <|> p).getD 0

/-- The resolved step label of a metric event given the progress state. -/
def resolveStepLabel (ps : ProgressState) (m : Metric) : Int :=
  resolveLabelOpt ps.current_step m

/-- `metric.total_epochs ?? metric.total_estimators ??
metric.total_iterations ?? progress.total_steps ?? 0` (line 147). -/
def resolveTotalSteps (ps : ProgressState) (m : Metric) : Int :=
  (m.total_epochs <|> m.total_estimators <|> m.total_iterations <|>
    ps.total_steps).getD 0

/-- `train_r2` for regression tasks, `train_accuracy` otherwise
(lines 155-156). -/
def primaryTrainValue (isRegression : Bool) (m : Metric) : Option Int :=
  if isRegression then m.train_r2 else m.train_accuracy

/-- `val_r2` for regression tasks, `val_accuracy` otherwise (line 157). -/
def primaryValValue (isRegression : Bool) (m : Metric) : Option Int :=
  if isRegression then m.val_r2 else m.val_accuracy

/-- `train_rmse` for regression tasks, `train_loss` otherwise (line 158). -/
def secondaryTrainValue (isRegression : Bool) (m : Metric) : Option Int :=
  if isRegression then m.train_rmse else m.train_loss

/-- `val_rmse` for regression tasks, `val_loss` otherwise (line 159). -/
def secondaryValValue (isRegression : Bool) (m : Metric) : Option Int :=
  if isRegression then m.val_rmse else m.val_loss

/-- The chart retention cap (`Training.jsx` line 182). -/
def maxPoints : Nat := 150

/-- `Training.jsx` lines 161-180: look the label up in the primary series'
labels (`indexOf`); if found, write all four values in place at that index
(labels untouched, the secondary series indexed by the primary index);
otherwise push the label and all four values. -/
def chartUpsert (c : ChartState) (label : Int) (tP vP tS vS : Option Int) :
    ChartState :=
  match c.primary.labels.indexOf? label with
  | some i =>
      { primary := { labels := c.primary.labels,
                     train := c.primary.train.set i tP,
                     val := c.primary.val.set i vP },
        secondary := { labels := c.secondary.labels,
                       train := c.secondary.train.set i tS,
                       val := c.secondary.val.set i vS } }
  | none =>
      { primary := { labels := c.primary.labels ++ [label],
                     train := c.primary.train ++ [tP],
                     val := c.primary.val ++ [vP] },
        secondary := { labels := c.secondary.labels ++ [label],
                       train := c.secondary.train ++ [tS],
                       val := c.secondary.val ++ [vS] } }

/-- One `shift()` of every list of both series (`Training.jsx`
lines 184-187). -/
def chartShift (c : ChartState) : ChartState :=
  { primary := { labels := c.primary.labels.drop 1,
                 train := c.primary.train.drop 1,
                 val := c.primary.val.drop 1 },
    secondary := { labels := c.secondary.labels.drop 1,
                   train := c.secondary.train.drop 1,
                   val := c.secondary.val.drop 1 } }

/-- Fuelled form of the `while (newPrimary.labels.length > maxPoints)`
eviction loop (lines 183-188).  Each iteration shortens the primary label
list by one, so `c.primary.labels.length` units of fuel always suffice. -/
def evictLoop : Nat → ChartState → ChartState
  | 0, c => c
  | fuel + 1, c =>
      if c.primary.labels.length > maxPoints then evictLoop fuel (chartShift c)
      else c

/-- The eviction loop with sufficient fuel. -/
def chartEvict (c : ChartState) : ChartState :=
  evictLoop c.primary.labels.length c

/-- JavaScript falsiness of an optional string (`undefined` / `null` /
`''`). -/
def jsFalsyStr : Option String → Bool
  | none => true
  | some s => s == ""

/-- `if (!metric.timestamp) metric.timestamp = new Date().toISOString()`
(`Training.jsx` line 143) with `now` the local receipt time. -/
def stampMetric (now : String) (m : Metric) : Metric :=
  if jsFalsyStr m.timestamp then { m with timestamp := some now } else m

/-- The state folded by `onMetric`: the last metric event (`metrics`
state), the progress record, and the chart pair. -/
structure MetricAccum where
  lastMetric : Option Metric := none
  progress : ProgressState
  chart : ChartState
  deriving DecidableEq, Repr

/-- The Training page's accumulator state on mount. -/
def trainingInitialAccum : MetricAccum :=
  { lastMetric := none, progress := trainingInitialProgress,
    chart := initialMetricData }

/-- `Training.jsx` lines 140-192 (`onMetric`): stamp the event, resolve the
step label and total steps, update `metrics` and `progress`, then upsert
into the capped chart pair. -/
def trainingOnMetric (isRegression : Bool) (now : String) (acc : MetricAccum)
    (m0 : Metric) : MetricAccum :=
  let m := stampMetric now m0
  let stepLabel := resolveStepLabel acc.progress m
  let totalSteps := resolveTotalSteps acc.progress m
  let progress1 :=
    { acc.progress with current_step := some stepLabel, total_steps := some totalSteps }
  { lastMetric := some m,
    progress := progress1,
    chart := chartEvict (chartUpsert acc.chart stepLabel
      (primaryTrainValue isRegression m) (primaryValValue isRegression m)
      (secondaryTrainValue isRegression m) (secondaryValValue isRegression m)) }

/-- Fold a sequence of `training_metric` events into the accumulator (all
events receive the same local receipt time `now`; the chart and progress
components do not depend on it). -/
def foldMetrics (isRegression : Bool) (now : String) (acc : MetricAccum)
    (events : List Metric) : MetricAccum :=
  events.foldl (trainingOnMetric isRegression now) acc

/-- The sequence of resolved step labels along a fold, starting from
`progress.current_step = p`: each event's label is resolved against the
`current_step` written by the previous event. -/
def labelTrace (p : Option Int) : List Metric → List Int
  | [] => []
  | m :: ms => resolveLabelOpt p m :: labelTrace (some (resolveLabelOpt p m)) ms

/-- A concrete classification metric event for epoch 1. -/
def metricEventA : Metric :=
  { epoch := some 1, train_accuracy := some 10, val_accuracy := some 20,
    train_loss := some 30, val_loss := some 40 }

/-- A second concrete metric event for the same epoch with different
values. -/
def metricEventB : Metric :=
  { epoch := some 1, train_accuracy := some 11, val_accuracy := some 21,
    train_loss := some 31, val_loss := some 41 }

/-- Well-formedness of a chart state: all six lists have the same length
(maintained by the accumulator, which always pushes to and shifts all six
in lock step). -/
def ChartWF (c : ChartState) : Prop :=
  c.primary.train.length = c.primary.labels.length ∧
  c.primary.val.length = c.primary.labels.length ∧
  c.secondary.labels.length = c.primary.labels.length ∧
  c.secondary.train.length = c.primary.labels.length ∧
  c.secondary.val.length = c.primary.labels.length

/-- A family of `n` sequential metric events with pairwise distinct epochs
(hence pairwise distinct resolved step labels). -/
def sequentialMetricEvents (n : Nat) : List Metric :=
  (List.range n).map fun k =>
    { epoch := some (Int.ofNat k), train_accuracy := some (Int.ofNat k),
      val_accuracy := some (Int.ofNat k), train_loss := some (Int.ofNat k),
      val_loss := some (Int.ofNat k), train_r2 := some (Int.ofNat k),
      val_r2 := some (Int.ofNat k), train_rmse := some (Int.ofNat k),
      val_rmse := some (Int.ofNat k) }

/-! ## Log accumulators and timestamp stamping -/

/-- A `training_log` / client-note entry as retained in the `logs` list
(rendering-only fields such as `log_type` are not modelled; `type` refers
to the event's discriminating `type` field). -/
structure LogEntry where
  type : String := ""
  message : String := ""
  timestamp : Option String := none
  deriving DecidableEq, Repr

/-- `if (!log.timestamp) log.timestamp = new Date().toISOString()` — the
stamping line shared by the `onLog` / `handleLog` handlers of all three
pages. -/
def stampLog (now : String) (e : LogEntry) : LogEntry :=
  if jsFalsyStr e.timestamp then { e with timestamp := some now } else e

/-- `Training.jsx` lines 134-138 (`onLog`): stamp, then append to the log
list. -/
def trainingOnLog (now : String) (logs : List LogEntry) (e : LogEntry) :
    List LogEntry :=
  logs ++ [stampLog now e]

/-- `AnalyzeData.jsx` lines 103-111 (`handleLog`), log-list projection:
stamp, then append (the handler also mirrors `analysis_result` payloads
into separate state). -/
def analyzeHandleLog (now : String) (logs : List LogEntry) (e : LogEntry) :
    List LogEntry :=
  logs ++ [stampLog now e]

/-- `CleanData.jsx` lines 100-103 (`onLog`), log-list projection: stamp,
then append (the handler also mirrors report / preview payloads into
separate state). -/
def cleanOnLog (now : String) (logs : List LogEntry) (e : LogEntry) :
    List LogEntry :=
  logs ++ [stampLog now e]

/-- The log-list effect of `CleanData.jsx` `handleStartCleaning`
(lines 191-205): guarded on status `READY` or `CLEANING_FAILED`; when it
proceeds, the log list is replaced by a fresh reset entry and then the
request entry is appended. -/
def cleanStartCleaningLogs (status : RunStatus) (now1 now2 : String)
    (logs : List LogEntry) : List LogEntry :=
  if status = READY || status = CLEANING_FAILED then
    [{ type := "CLIENT", message := "Resetting state for new cleaning run...",
       timestamp := some now1 },
     { type := "CLIENT", message := "Cleaning task requested...",
       timestamp := some now2 }]
  else logs

/-! ## Progress accumulator and progress-bar rendering -/

/-- A `training_progress` event; `none` fields are absent from the
payload. -/
structure ProgressEvent where
  current_step : Option Int := none
  total_steps : Option Int := none
  batch : Option Int := none
  total_batches : Option Int := none
  timestamp : Option String := none
  deriving DecidableEq, Repr

/-- Timestamp stamping of a progress event (`Training.jsx` line 196). -/
def stampProgress (now : String) (e : ProgressEvent) : ProgressEvent :=
  if jsFalsyStr e.timestamp then { e with timestamp := some now } else e

/-- The object spread `{ ...prev, ...prog }`: fields present in the event
overwrite, absent fields keep the previous value. -/
def mergeProgress (prev : ProgressState) (e : ProgressEvent) : ProgressState :=
  { prev with
    current_step := e.current_step <|> prev.current_step,
    total_steps := e.total_steps <|> prev.total_steps,
    batch := e.batch <|> prev.batch,
    total_batches := e.total_batches <|> prev.total_batches,
    timestamp := e.timestamp <|> prev.timestamp }

/-- `Training.jsx` lines 194-198 (`onProgress`): stamp, then merge into the
progress record. -/
def trainingOnProgress (now : String) (prev : ProgressState)
    (e : ProgressEvent) : ProgressState :=
  mergeProgress prev (stampProgress now e)

/-- JavaScript `a || d` for a possibly-absent number `a`: falsy (`0`,
`null`, `undefined`) falls through to `d`. -/
def jsTruthyOr (a : Option Int) (d : Int) : Int :=
  match a with
  | some x => if x = 0 then d else x
  | none => d

/-- `progress.epoch || progress.current_step || 0` (`Training.jsx`
line 392). -/
def progressBarNum (p : ProgressState) : Int :=
  jsTruthyOr p.epoch (jsTruthyOr p.current_step 0)

/-- `progress.total_epochs || progress.total_steps || 1` (line 392). -/
def progressBarDen (p : ProgressState) : Int :=
  jsTruthyOr p.total_epochs (jsTruthyOr p.total_steps 1)

/-- The rendered progress-bar percentage
`(num / den) * 100` (`Training.jsx` line 392), in exact rationals. -/
def progressBarPercent (p : ProgressState) : ℚ :=
  ((progressBarNum p : ℚ) / (progressBarDen p : ℚ)) * 100

/-- Refinement reference for the progress percentage, following the spec's
words: `currentStep / totalSteps`, "treating `totalSteps <= 0` as `1`",
rendered as a percentage. -/
def specProgressPercent (currentStep totalSteps : Int) : ℚ :=
  ((currentStep : ℚ) / (if totalSteps ≤ 0 then (1 : ℚ) else (totalSteps : ℚ)))
    * 100

/-! ## Socket wrapper variants (`socket_enhanced.js` and `socket.js`) -/

/-- Browser-local persistent storage keys used by the app. -/
structure ClientStorage where
  access_token : Option String := none
  user : Option String := none
  deriving DecidableEq, Repr

/-- The synchronous outcome of a `joinTrainingRoom(runId)` call: either the
returned promise is rejected immediately, or a `join_room` request carrying
the token and run id is emitted (the promise then settles later from the
server's acknowledgement). -/
inductive JoinAttempt where
  | rejected (reason : String)
  | emitJoinRoom (token : String) (model_run_id : String)
  deriving DecidableEq, Repr

/-- `socket_enhanced.js` `joinTrainingRoom` (wrapper variant 1,
lines 175-221): read the token from local storage at call time; reject
without emitting when it is falsy, otherwise emit `join_room`. -/
def joinTrainingRoomV1 (storage : ClientStorage) (modelRunId : String) :
    JoinAttempt :=
  match storage.access_token with
  | none => .rejected "No auth token found, cannot join room."
  | some t =>
      if t == "" then .rejected "No auth token found, cannot join room."
      else .emitJoinRoom t modelRunId

/-- `socket.js` `joinTrainingRoom` (wrapper variant 2, lines 304-322):
identical token handling, acknowledgement-callback style. -/
def joinTrainingRoomV2 (storage : ClientStorage) (modelRunId : String) :
    JoinAttempt :=
  match storage.access_token with
  | none => .rejected "No auth token found, cannot join room."
  | some t =>
      if t == "" then .rejected "No auth token found, cannot join room."
      else .emitJoinRoom t modelRunId

/-- Outbound socket messages relevant to leaving a room. -/
inductive SocketMsg where
  | leaveRoom (model_run_id : String)
  deriving DecidableEq, Repr

/-- `socket_enhanced.js` `leaveTrainingRoom` (wrapper variant 1,
lines 227-230): emits `leave_room` unconditionally, with no connectivity
check; the function body cannot throw. -/
def leaveTrainingRoomV1 (_connected : Bool) (modelRunId : String) :
    List SocketMsg :=
  [.leaveRoom modelRunId]

/-- `socket.js` `leaveTrainingRoom` (wrapper variant 2, lines 327-332):
emits `leave_room` only when the transport is connected; the function body
cannot throw. -/
def leaveTrainingRoomV2 (connected : Bool) (modelRunId : String) :
    List SocketMsg :=
  if connected then [.leaveRoom modelRunId] else []

/-! ## Axios response interceptor (`api.js`) -/

/-- A rejected axios call: `status = none` models a network error with no
response object. -/
structure ApiError where
  status : Option Nat := none
  message : String := ""
  deriving DecidableEq, Repr

/-- `error.response && error.response.status === 401`. -/
def apiErrorIs401 (e : ApiError) : Bool :=
  match e.status with
  | some s => s == 401
  | none => false

/-- `api.js` response interceptor error branch (lines 41-67): on a 401
response, remove the access token and then the cached user from local
storage and redirect to the login page; rewrite the message on network and
server errors; finally reject with the error.  The returned triple is
(storage after the call, whether a login redirect was issued, the error
the promise rejects with). -/
def apiResponseErrorInterceptor (storage : ClientStorage) (e : ApiError) :
    ClientStorage × Bool × ApiError :=
  let storage1 :=
    if apiErrorIs401 e then { storage with access_token := none } else storage
  let storage2 :=
    if apiErrorIs401 e then { storage1 with user := none } else storage1
  let redirected := apiErrorIs401 e
  let e1 :=
    if e.status = none then
      { e with message := "Network error. Please check your connection and try again." }
    else e
  let e2 :=
    match e1.status with
    | some s =>
        if s ≥ 500 then
          { e1 with message := "Server error. Please try again later." }
        else e1
    | none => e1
  (storage2, redirected, e2)

/-! ## Helper lemmas -/

theorem cleanToastInv_effect {st : CleanToastState} (h : CleanToastInv st) :
    CleanToastInv (cleanToastEffect st) := by
  obtain ⟨hs, he⟩ := h
  unfold CleanToastInv cleanToastEffect
  split_ifs with h1 h2 <;> simp_all

theorem cleanToastInv_step {st : CleanToastState} (u : RunStatus)
    (h : CleanToastInv st) : CleanToastInv (cleanToastStep st u) := by
  apply cleanToastInv_effect
  exact h

theorem cleanToastInv_fold (events : List RunStatus) :
    ∀ st : CleanToastState, CleanToastInv st →
      CleanToastInv (events.foldl cleanToastStep st) := by
  induction events with
  | nil => intro st h; simpa using h
  | cons e es ih =>
      intro st h
      simpa using ih (cleanToastStep st e) (cleanToastInv_step e h)

theorem trainingToast_inactive_fold (events : List RunStatus) :
    ∀ (s : RunStatus) (n : Nat), trainingListenersActive s = false →
      events.foldl trainingStatusToastStep (s, n) = (s, n) := by
  induction events with
  | nil => intro s n _; rfl
  | cons e es ih =>
      intro s n h
      simp only [List.foldl_cons, trainingStatusToastStep, h]
      exact ih s n h

theorem trainingToast_replicate_le (k : Nat) (s : RunStatus) (n : Nat)
    (u : RunStatus) (hu : trainingListenersActive u = false) :
    ((List.replicate k u).foldl trainingStatusToastStep (s, n)).2 ≤ n + 1 := by
  induction k generalizing s n with
  | zero => simp
  | succ k ih =>
      simp only [List.replicate_succ, List.foldl_cons]
      by_cases ha : trainingListenersActive s = true
      · simp only [trainingStatusToastStep, ha, if_true]
        rw [trainingToast_inactive_fold _ u _ hu]
        split <;> omega
      · simp only [trainingStatusToastStep, ha, if_false]
        exact ih s n

theorem jsTruthyOr_ne_zero (a : Option Int) (d : Int) (hd : d ≠ 0) :
    jsTruthyOr a d ≠ 0 := by
  cases a with
  | none => simpa [jsTruthyOr] using hd
  | some x => by_cases hx : x = 0 <;> simp [jsTruthyOr, hx, hd]

theorem stampLog_timestamp_ne_none (now : String) (e : LogEntry) :
    (stampLog now e).timestamp ≠ none := by
  cases h : e.timestamp with
  | none => simp [stampLog, jsFalsyStr, h]
  | some s =>
      simp only [stampLog, jsFalsyStr, h]
      split <;> simp [h]

theorem stampMetric_timestamp_ne_none (now : String) (m : Metric) :
    (stampMetric now m).timestamp ≠ none := by
  cases h : m.timestamp with
  | none => simp [stampMetric, jsFalsyStr, h]
  | some s =>
      simp only [stampMetric, jsFalsyStr, h]
      split <;> simp [h]

theorem stampProgress_timestamp_ne_none (now : String) (pe : ProgressEvent) :
    (stampProgress now pe).timestamp ≠ none := by
  cases h : pe.timestamp with
  | none => simp [stampProgress, jsFalsyStr, h]
  | some s =>
      simp only [stampProgress, jsFalsyStr, h]
      split <;> simp [h]

theorem resolveLabelOpt_stamp (p : Option Int) (now : String) (m : Metric) :
    resolveLabelOpt p (stampMetric now m) = resolveLabelOpt p m := by
  unfold stampMetric
  split <;> rfl

theorem primaryTrainValue_stamp (r : Bool) (now : String) (m : Metric) :
    primaryTrainValue r (stampMetric now m) = primaryTrainValue r m := by
  unfold stampMetric
  split <;> rfl

theorem primaryValValue_stamp (r : Bool) (now : String) (m : Metric) :
    primaryValValue r (stampMetric now m) = primaryValValue r m := by
  unfold stampMetric
  split <;> rfl

theorem secondaryTrainValue_stamp (r : Bool) (now : String) (m : Metric) :
    secondaryTrainValue r (stampMetric now m) = secondaryTrainValue r m := by
  unfold stampMetric
  split <;> rfl

theorem secondaryValValue_stamp (r : Bool) (now : String) (m : Metric) :
    secondaryValValue r (stampMetric now m) = secondaryValValue r m := by
  unfold stampMetric
  split <;> rfl

theorem evictLoop_of_le (fuel : Nat) (c : ChartState)
    (h : c.primary.labels.length ≤ maxPoints) : evictLoop fuel c = c := by
  cases fuel with
  | zero => rfl
  | succ f => simp [evictLoop, Nat.not_lt.mpr h]

theorem chartEvict_of_le (c : ChartState)
    (h : c.primary.labels.length ≤ maxPoints) : chartEvict c = c :=
  evictLoop_of_le _ c h

theorem evictLoop_succ (fuel : Nat) (c : ChartState) :
    evictLoop (fuel + 1) c =
      if c.primary.labels.length > maxPoints then evictLoop fuel (chartShift c)
      else c :=
  rfl

theorem chartEvict_of_succ (c : ChartState)
    (h : c.primary.labels.length = maxPoints + 1) :
    chartEvict c = chartShift c := by
  have hs : (chartShift c).primary.labels.length ≤ maxPoints := by
    simp [chartShift, h]
  unfold chartEvict
  rw [h, evictLoop_succ, if_pos (by rw [h]; exact Nat.lt_succ_self _)]
  exact evictLoop_of_le _ _ hs

theorem indexOf?_eq_none_of_not_mem {a : Int} {l : List Int} (h : a ∉ l) :
    l.indexOf? a = none := by
  refine List.indexOf?_eq_none_iff.mpr fun x hx => ?_
  simp only [beq_iff_eq]
  rintro rfl
  exact h hx

theorem not_mem_of_indexOf?_eq_none {a : Int} {l : List Int}
    (h : l.indexOf? a = none) : a ∉ l := by
  intro hm
  have := List.indexOf?_eq_none_iff.mp h a hm
  simp at this

theorem indexOf?_append_singleton_self (a : Int) (xs : List Int)
    (h : a ∉ xs) : (xs ++ [a]).indexOf? a = some xs.length := by
  induction xs with
  | nil => simp [List.indexOf?_cons]
  | cons x xs ih =>
      have hxa : (x == a) = false := by
        simp only [beq_eq_false_iff_ne, ne_eq]
        rintro rfl
        exact h (List.mem_cons_self _ _)
      simp only [List.cons_append, List.indexOf?_cons, hxa, if_false,
        Bool.false_eq_true]
      rw [ih fun hm => h (List.mem_cons_of_mem _ hm)]
      rfl

theorem indexOf?_lt_length {a : Int} :
    ∀ {l : List Int} {i : Nat}, l.indexOf? a = some i → i < l.length := by
  intro l
  induction l with
  | nil => intro i h; simp at h
  | cons x xs ih =>
      intro i h
      rw [List.indexOf?_cons] at h
      by_cases hx : (x == a) = true
      · rw [if_pos hx] at h
        injection h with h
        subst h
        simp only [List.length_cons]
        omega
      · rw [if_neg hx] at h
        cases hxs : xs.indexOf? a with
        | none => rw [hxs] at h; simp at h
        | some j =>
            rw [hxs] at h
            have hji : j + 1 = i := by simpa using h
            have := ih hxs
            simp only [List.length_cons]
            omega

theorem rtake_of_length_le {α : Type} {l : List α} {n : Nat}
    (h : l.length ≤ n) : l.rtake n = l := by
  simp [List.rtake, Nat.sub_eq_zero_of_le h]

theorem rtake_append_rtake {α : Type} (a b : List α) (n : Nat) :
    (a.rtake n ++ b).rtake n = (a ++ b).rtake n := by
  rw [List.rtake_eq_reverse_take_reverse, List.rtake_eq_reverse_take_reverse,
    List.rtake_eq_reverse_take_reverse]
  congr 1
  rw [List.reverse_append, List.reverse_append, List.reverse_reverse,
    List.take_append_eq_append_take, List.take_append_eq_append_take,
    List.take_take]
  congr 1
  rw [min_eq_left (Nat.sub_le n b.reverse.length)]

/-- After one `onMetric` upsert + eviction step from a chart whose primary
labels are within the cap, the step's label is present and the cap still
holds. -/
theorem step_label_found (c : ChartState) (L : Int) (t1 v1 t2 v2 : Option Int)
    (hlen : c.primary.labels.length ≤ maxPoints) :
    ∃ j, (chartEvict (chartUpsert c L t1 v1 t2 v2)).primary.labels.indexOf? L
          = some j ∧
      (chartEvict (chartUpsert c L t1 v1 t2 v2)).primary.labels.length ≤
        maxPoints := by
  cases hfound : c.primary.labels.indexOf? L with
  | some i =>
      have hup : chartUpsert c L t1 v1 t2 v2 =
          { primary := { labels := c.primary.labels,
                         train := c.primary.train.set i t1,
                         val := c.primary.val.set i v1 },
            secondary := { labels := c.secondary.labels,
                           train := c.secondary.train.set i t2,
                           val := c.secondary.val.set i v2 } } := by
        unfold chartUpsert
        rw [hfound]
      rw [hup, chartEvict_of_le _ (by simpa using hlen)]
      exact ⟨i, by simpa using hfound, by simpa using hlen⟩
  | none =>
      have hnm : L ∉ c.primary.labels := not_mem_of_indexOf?_eq_none hfound
      have hup : chartUpsert c L t1 v1 t2 v2 =
          { primary := { labels := c.primary.labels ++ [L],
                         train := c.primary.train ++ [t1],
                         val := c.primary.val ++ [v1] },
            secondary := { labels := c.secondary.labels ++ [L],
                           train := c.secondary.train ++ [t2],
                           val := c.secondary.val ++ [v2] } } := by
        unfold chartUpsert
        rw [hfound]
      rcases Nat.lt_or_ge c.primary.labels.length maxPoints with hlt | hge
      · rw [hup, chartEvict_of_le _ (by simp; omega)]
        exact ⟨c.primary.labels.length,
          indexOf?_append_singleton_self L _ hnm, by simp; omega⟩
      · have heq : c.primary.labels.length = maxPoints := le_antisymm hlen hge
        rw [hup, chartEvict_of_succ _ (by simp [heq])]
        have hd : ((c.primary.labels ++ [L]).drop 1) =
            c.primary.labels.drop 1 ++ [L] := by
          rw [List.drop_append_eq_append_drop]
          simp [heq, maxPoints]
        have hnm' : L ∉ c.primary.labels.drop 1 :=
          fun hm => hnm (List.drop_subset 1 _ hm)
        refine ⟨(c.primary.labels.drop 1).length, ?_, ?_⟩
        · simp only [chartShift, hd]
          exact indexOf?_append_singleton_self L _ hnm'
        · simp [chartShift, heq]

theorem resolveStepLabel_stamp (ps : ProgressState) (now : String)
    (m : Metric) :
    resolveStepLabel ps (stampMetric now m) = resolveStepLabel ps m :=
  resolveLabelOpt_stamp ps.current_step now m

/-- The found branch of one upsert + eviction step: with the label present
at index `i` and the chart within the cap, all four values are written in
place at `i` and nothing else changes. -/
theorem upsertEvict_found {c : ChartState} {L : Int} {i : Nat}
    (t1 v1 t2 v2 : Option Int)
    (hfound : c.primary.labels.indexOf? L = some i)
    (hlen : c.primary.labels.length ≤ maxPoints) :
    chartEvict (chartUpsert c L t1 v1 t2 v2) =
      { primary := { labels := c.primary.labels,
                     train := c.primary.train.set i t1,
                     val := c.primary.val.set i v1 },
        secondary := { labels := c.secondary.labels,
                       train := c.secondary.train.set i t2,
                       val := c.secondary.val.set i v2 } } := by
  have hup : chartUpsert c L t1 v1 t2 v2 =
      { primary := { labels := c.primary.labels,
                     train := c.primary.train.set i t1,
                     val := c.primary.val.set i v1 },
        secondary := { labels := c.secondary.labels,
                       train := c.secondary.train.set i t2,
                       val := c.secondary.val.set i v2 } } := by
    unfold chartUpsert
    rw [hfound]
  rw [hup, chartEvict_of_le _ (by simpa using hlen)]

/-- The chart component of one `onMetric` step, with the stamped label
rewritten to the unstamped one. -/
theorem trainingOnMetric_chart (isRegression : Bool) (now : String)
    (acc : MetricAccum) (m : Metric) :
    (trainingOnMetric isRegression now acc m).chart =
      chartEvict (chartUpsert acc.chart (resolveStepLabel acc.progress m)
        (primaryTrainValue isRegression m) (primaryValValue isRegression m)
        (secondaryTrainValue isRegression m)
        (secondaryValValue isRegression m)) := by
  simp only [trainingOnMetric]
  rw [resolveStepLabel_stamp, primaryTrainValue_stamp, primaryValValue_stamp,
    secondaryTrainValue_stamp, secondaryValValue_stamp]

/-- The `current_step` written by one `onMetric` step is the event's
resolved label. -/
theorem trainingOnMetric_current_step (isRegression : Bool) (now : String)
    (acc : MetricAccum) (m : Metric) :
    (trainingOnMetric isRegression now acc m).progress.current_step =
      some (resolveStepLabel acc.progress m) := by
  simp only [trainingOnMetric]
  rw [resolveStepLabel_stamp]

theorem rtake_length {α : Type} (l : List α) (n : Nat) :
    (l.rtake n).length = min n l.length := by
  simp only [List.rtake, List.length_drop]
  omega

theorem rtake_subset {α : Type} (l : List α) (n : Nat) : l.rtake n ⊆ l :=
  List.drop_subset _ l

theorem rtake_append_singleton_of_lt {α : Type} {l : List α} {x : α}
    (h : l.length + 1 ≤ maxPoints) : (l ++ [x]).rtake maxPoints = l ++ [x] :=
  rtake_of_length_le (by simpa using h)

theorem rtake_append_singleton_of_eq {α : Type} {l : List α} {x : α}
    (h : l.length = maxPoints) :
    (l ++ [x]).rtake maxPoints = (l ++ [x]).drop 1 := by
  simp [List.rtake, h]

theorem labelTrace_length (p : Option Int) (es : List Metric) :
    (labelTrace p es).length = es.length := by
  induction es generalizing p with
  | nil => rfl
  | cons m ms ih => simp [labelTrace, ih]

/-- The push branch of one upsert + eviction step, expressed uniformly:
every one of the six lists becomes the last `maxPoints` elements of itself
with the new element appended (for a well-formed chart within the cap). -/
theorem push_evict_rtake (c : ChartState) (L : Int) (t1 v1 t2 v2 : Option Int)
    (hwf : ChartWF c) (hlen : c.primary.labels.length ≤ maxPoints)
    (hnone : c.primary.labels.indexOf? L = none) :
    chartEvict (chartUpsert c L t1 v1 t2 v2) =
      { primary := { labels := (c.primary.labels ++ [L]).rtake maxPoints,
                     train := (c.primary.train ++ [t1]).rtake maxPoints,
                     val := (c.primary.val ++ [v1]).rtake maxPoints },
        secondary :=
          { labels := (c.secondary.labels ++ [L]).rtake maxPoints,
            train := (c.secondary.train ++ [t2]).rtake maxPoints,
            val := (c.secondary.val ++ [v2]).rtake maxPoints } } := by
  obtain ⟨h1, h2, h3, h4, h5⟩ := hwf
  have hup : chartUpsert c L t1 v1 t2 v2 =
      { primary := { labels := c.primary.labels ++ [L],
                     train := c.primary.train ++ [t1],
                     val := c.primary.val ++ [v1] },
        secondary := { labels := c.secondary.labels ++ [L],
                       train := c.secondary.train ++ [t2],
                       val := c.secondary.val ++ [v2] } } := by
    unfold chartUpsert
    rw [hnone]
  rcases Nat.lt_or_ge c.primary.labels.length maxPoints with hlt | hge
  · rw [hup, chartEvict_of_le _ (by simp; omega)]
    simp only [ChartState.mk.injEq, Series.mk.injEq]
    refine ⟨⟨?_, ?_, ?_⟩, ?_, ?_, ?_⟩ <;>
      rw [rtake_append_singleton_of_lt (by omega)]
  · have heq : c.primary.labels.length = maxPoints := le_antisymm hlen hge
    rw [hup, chartEvict_of_succ _ (by simp [heq])]
    simp only [chartShift, ChartState.mk.injEq, Series.mk.injEq]
    refine ⟨⟨?_, ?_, ?_⟩, ?_, ?_, ?_⟩ <;>
      rw [rtake_append_singleton_of_eq (by omega)]

set_option maxRecDepth 4000 in
/-- Folding metric events whose resolved labels are pairwise distinct and
fresh for the current chart: every one of the six lists ends up as the
last `maxPoints` elements of itself extended by the events' labels /
chosen values, in arrival order. -/
theorem foldMetrics_fresh (isRegression : Bool) (now : String) :
    ∀ (es : List Metric) (acc : MetricAccum),
      ChartWF acc.chart → acc.chart.primary.labels.length ≤ maxPoints →
      (labelTrace acc.progress.current_step es).Nodup →
      (∀ l ∈ labelTrace acc.progress.current_step es,
        l ∉ acc.chart.primary.labels) →
      ((foldMetrics isRegression now acc es).chart.primary.labels =
          (acc.chart.primary.labels ++
            labelTrace acc.progress.current_step es).rtake maxPoints ∧
        (foldMetrics isRegression now acc es).chart.secondary.labels =
          (acc.chart.secondary.labels ++
            labelTrace acc.progress.current_step es).rtake maxPoints) ∧
      ((foldMetrics isRegression now acc es).chart.primary.train =
          (acc.chart.primary.train ++
            es.map (primaryTrainValue isRegression)).rtake maxPoints ∧
        (foldMetrics isRegression now acc es).chart.primary.val =
          (acc.chart.primary.val ++
            es.map (primaryValValue isRegression)).rtake maxPoints) ∧
      ((foldMetrics isRegression now acc es).chart.secondary.train =
          (acc.chart.secondary.train ++
            es.map (secondaryTrainValue isRegression)).rtake maxPoints ∧
        (foldMetrics isRegression now acc es).chart.secondary.val =
          (acc.chart.secondary.val ++
            es.map (secondaryValValue isRegression)).rtake maxPoints) := by
  intro es
  induction es with
  | nil =>
      intro acc hwf hlen _ _
      obtain ⟨h1, h2, h3, h4, h5⟩ := hwf
      refine ⟨⟨?_, ?_⟩, ⟨?_, ?_⟩, ⟨?_, ?_⟩⟩ <;>
        simp only [foldMetrics, List.foldl_nil, labelTrace, List.map_nil,
          List.append_nil] <;>
        rw [rtake_of_length_le (by omega)]
  | cons m ms ih =>
      intro acc hwf hlen hnodup hfresh
      have htr : labelTrace acc.progress.current_step (m :: ms) =
          resolveLabelOpt acc.progress.current_step m ::
            labelTrace (some (resolveLabelOpt acc.progress.current_step m))
              ms := rfl
      rw [htr] at hnodup hfresh ⊢
      have hLn : resolveLabelOpt acc.progress.current_step m ∉
          labelTrace (some (resolveLabelOpt acc.progress.current_step m)) ms :=
        (List.nodup_cons.mp hnodup).1
      have hnodup' := (List.nodup_cons.mp hnodup).2
      have hfreshL : resolveLabelOpt acc.progress.current_step m ∉
          acc.chart.primary.labels :=
        hfresh _ (List.mem_cons_self _ _)
      have hfresh' : ∀ l ∈
          labelTrace (some (resolveLabelOpt acc.progress.current_step m)) ms,
          l ∉ acc.chart.primary.labels :=
        fun l hl => hfresh l (List.mem_cons_of_mem _ hl)
      have hnone : acc.chart.primary.labels.indexOf?
          (resolveLabelOpt acc.progress.current_step m) = none :=
        indexOf?_eq_none_of_not_mem hfreshL
      have hc1 : (trainingOnMetric isRegression now acc m).chart =
          { primary :=
              { labels := (acc.chart.primary.labels ++
                  [resolveLabelOpt acc.progress.current_step m]).rtake
                    maxPoints,
                train := (acc.chart.primary.train ++
                  [primaryTrainValue isRegression m]).rtake maxPoints,
                val := (acc.chart.primary.val ++
                  [primaryValValue isRegression m]).rtake maxPoints },
            secondary :=
              { labels := (acc.chart.secondary.labels ++
                  [resolveLabelOpt acc.progress.current_step m]).rtake
                    maxPoints,
                train := (acc.chart.secondary.train ++
                  [secondaryTrainValue isRegression m]).rtake maxPoints,
                val := (acc.chart.secondary.val ++
                  [secondaryValValue isRegression m]).rtake maxPoints } } := by
        rw [trainingOnMetric_chart]
        exact push_evict_rtake acc.chart
          (resolveLabelOpt acc.progress.current_step m)
          (primaryTrainValue isRegression m) (primaryValValue isRegression m)
          (secondaryTrainValue isRegression m)
          (secondaryValValue isRegression m) hwf hlen hnone
      have hcur : (trainingOnMetric isRegression now acc m).progress.current_step
          = some (resolveLabelOpt acc.progress.current_step m) :=
        trainingOnMetric_current_step isRegression now acc m
      obtain ⟨h1, h2, h3, h4, h5⟩ := hwf
      have hwf1 : ChartWF (trainingOnMetric isRegression now acc m).chart := by
        rw [hc1]
        refine ⟨?_, ?_, ?_, ?_, ?_⟩ <;>
          simp [rtake_length, List.length_append, h1, h2, h3, h4, h5]
      have hlen1 : (trainingOnMetric isRegression now
          acc m).chart.primary.labels.length ≤ maxPoints := by
        rw [hc1]
        simp only [rtake_length]
        omega
      have hnodup1 : (labelTrace (trainingOnMetric isRegression now
          acc m).progress.current_step ms).Nodup := by
        rw [hcur]
        exact hnodup'
      have hfresh1 : ∀ l ∈ labelTrace (trainingOnMetric isRegression now
          acc m).progress.current_step ms,
          l ∉ (trainingOnMetric isRegression now acc m).chart.primary.labels := by
        rw [hcur, hc1]
        intro l hl hmem
        have hmem' : l ∈ acc.chart.primary.labels ++
            [resolveLabelOpt acc.progress.current_step m] :=
          rtake_subset _ _ hmem
        rcases List.mem_append.mp hmem' with hmem'' | hmem''
        · exact hfresh' l hl hmem''
        · rw [List.mem_singleton] at hmem''
          subst hmem''
          exact hLn hl
      have hIH := ih (trainingOnMetric isRegression now acc m)
        hwf1 hlen1 hnodup1 hfresh1
      rw [hcur, hc1] at hIH
      obtain ⟨⟨i1, i2⟩, ⟨i3, i4⟩, ⟨i5, i6⟩⟩ := hIH
      have hfold : foldMetrics isRegression now acc (m :: ms) =
          foldMetrics isRegression now
            (trainingOnMetric isRegression now acc m) ms := rfl
      rw [hfold]
      simp only [List.map_cons]
      refine ⟨⟨?_, ?_⟩, ⟨?_, ?_⟩, ⟨?_, ?_⟩⟩
      · rw [i1, rtake_append_rtake, List.append_assoc, List.singleton_append]
      · rw [i2, rtake_append_rtake, List.append_assoc, List.singleton_append]
      · rw [i3, rtake_append_rtake, List.append_assoc, List.singleton_append]
      · rw [i4, rtake_append_rtake, List.append_assoc, List.singleton_append]
      · rw [i5, rtake_append_rtake, List.append_assoc, List.singleton_append]
      · rw [i6, rtake_append_rtake, List.append_assoc, List.singleton_append]

/-! ## Claims -/

/-- Claim C1, counterexample: on the Training page, a `status_update`
arriving while the reconciled status is the terminal `ANALYSIS_FAILED`
(whose listeners are still registered, since `ANALYSIS_FAILED` is not in
the page's own terminal list) moves the status to the non-terminal
`TRAINING`, and this is not the `CLEANING_FAILED → CLEANING` retry
exception. -/
theorem c1_counterexample :
    isTerminal ANALYSIS_FAILED = true ∧ isTerminal TRAINING = false ∧
    trainingStatusStep ANALYSIS_FAILED TRAINING = TRAINING ∧
    ¬(ANALYSIS_FAILED = CLEANING_FAILED ∧ TRAINING = CLEANING) := by
  decide

/-- Claim C1, amended: monotonic terminality under `status_update` events
holds on the Clean page for every terminal status, on the Analyze page for
every terminal status except `CANCELLED`, and on the Training page only
for `SUCCESS`, `FAILED`, `FETCH_FAILED` and `CANCELLED` (the statuses on
which that page unregisters its listeners); in each covered case the
status does not change at all. -/
theorem c1_amended (s u : RunStatus) (hs : isTerminal s = true) :
    cleanStatusStep s u = s ∧
    (s ≠ CANCELLED → analyzeStatusStep s u = s) ∧
    (s = SUCCESS ∨ s = FAILED ∨ s = FETCH_FAILED ∨ s = CANCELLED →
      trainingStatusStep s u = s) := by
  revert s u
  decide

/-- Claim C1, witness for the amended theorem at `s = SUCCESS`,
`u = TRAINING`. -/
theorem c1_witness :
    isTerminal SUCCESS = true ∧
    (cleanStatusStep SUCCESS TRAINING = SUCCESS ∧
      (SUCCESS ≠ CANCELLED → analyzeStatusStep SUCCESS TRAINING = SUCCESS) ∧
      (SUCCESS = SUCCESS ∨ SUCCESS = FAILED ∨ SUCCESS = FETCH_FAILED ∨
          SUCCESS = CANCELLED →
        trainingStatusStep SUCCESS TRAINING = SUCCESS)) :=
  ⟨by decide, c1_amended SUCCESS TRAINING (by decide)⟩

/-- Claim C2, counterexample: on the Training page, delivering the same
terminal `status_update` (`ANALYSIS_FAILED`) twice fires the failure toast
twice, because the handler toasts on every event and `ANALYSIS_FAILED`
does not unregister the listeners. -/
theorem c2_counterexample :
    ([ANALYSIS_FAILED, ANALYSIS_FAILED].foldl trainingStatusToastStep
      (TRAINING, 0)).2 = 2 ∧
    ¬(([ANALYSIS_FAILED, ANALYSIS_FAILED].foldl trainingStatusToastStep
      (TRAINING, 0)).2 ≤ 1) := by
  decide

/-- Claim C2, amended: on the Clean page each terminal toast (success and
error) fires at most once per page lifetime over any `status_update`
sequence (the `toastShownRef` guard); on the Training page a repeated
identical terminal event re-notifies only for `ANALYSIS_FAILED` /
`CLEANING_FAILED` — for `SUCCESS`, `FAILED`, `FETCH_FAILED` and
`CANCELLED` any number of repetitions of the same event yields at most one
toast, because the first one unregisters the listeners. -/
theorem c2_amended :
    (∀ (s0 : RunStatus) (events : List RunStatus),
      (cleanPageToasts s0 events).successToasts ≤ 1 ∧
      (cleanPageToasts s0 events).errorToasts ≤ 1) ∧
    (∀ (s : RunStatus) (k : Nat),
      ((List.replicate k SUCCESS).foldl trainingStatusToastStep (s, 0)).2 ≤ 1 ∧
      ((List.replicate k FAILED).foldl trainingStatusToastStep (s, 0)).2 ≤ 1 ∧
      ((List.replicate k FETCH_FAILED).foldl trainingStatusToastStep
        (s, 0)).2 ≤ 1 ∧
      ((List.replicate k CANCELLED).foldl trainingStatusToastStep
        (s, 0)).2 ≤ 1) := by
  constructor
  · intro s0 events
    have h0 : CleanToastInv { status := s0 } := by
      constructor <;> simp
    have h := cleanToastInv_fold events _ (cleanToastInv_effect h0)
    obtain ⟨h1, h2⟩ := h
    constructor
    · exact le_trans h1 (by split <;> omega)
    · exact le_trans h2 (by split <;> omega)
  · intro s k
    refine ⟨?_, ?_, ?_, ?_⟩ <;>
      exact trainingToast_replicate_le k s 0 _ (by decide)

/-- Claim C5: both `joinTrainingRoom` wrapper variants read the bearer token
from the storage passed at call time; with no (or an empty, hence falsy)
token the returned promise rejects and no `join_room` request is emitted,
and with a token present the `join_room` request carries exactly the token
currently in storage. -/
theorem c5_join_fresh_credential (storage : ClientStorage) (runId : String) :
    (jsFalsyStr storage.access_token = true →
      joinTrainingRoomV1 storage runId =
        .rejected "No auth token found, cannot join room." ∧
      joinTrainingRoomV2 storage runId =
        .rejected "No auth token found, cannot join room.") ∧
    (∀ t, storage.access_token = some t → t ≠ "" →
      joinTrainingRoomV1 storage runId = .emitJoinRoom t runId ∧
      joinTrainingRoomV2 storage runId = .emitJoinRoom t runId) := by
  obtain ⟨tok, usr⟩ := storage
  cases tok with
  | none => simp [joinTrainingRoomV1, joinTrainingRoomV2]
  | some t =>
      constructor
      · intro h
        simp only [jsFalsyStr] at h
        simp [joinTrainingRoomV1, joinTrainingRoomV2, eq_of_beq h]
      · intro t' ht ht'
        injection ht with ht
        subst ht
        simp [joinTrainingRoomV1, joinTrainingRoomV2, ht']

/-- Claim C6, counterexample: wrapper variant 1's `leaveTrainingRoom` emits
the `leave_room` notification even while the transport is disconnected —
it performs no connectivity check. -/
theorem c6_counterexample :
    leaveTrainingRoomV1 false "run-1" = [SocketMsg.leaveRoom "run-1"] ∧
    leaveTrainingRoomV1 false "run-1" ≠ [] := by
  decide

/-- Claim C6, amended: wrapper variant 2 sends `leave_room` exactly when the
transport is connected, while wrapper variant 1 emits it unconditionally
(Socket.IO buffers the packet while disconnected); both function bodies are
straight-line emits and never throw. -/
theorem c6_amended (connected : Bool) (runId : String) :
    leaveTrainingRoomV2 true runId = [SocketMsg.leaveRoom runId] ∧
    leaveTrainingRoomV2 false runId = [] ∧
    leaveTrainingRoomV1 connected runId = [SocketMsg.leaveRoom runId] := by
  simp [leaveTrainingRoomV1, leaveTrainingRoomV2]

/-- Claim C7: the log handlers of all three pages append the stamped event,
a stamped log / metric / progress event always carries a timestamp, an
event arriving without one is stamped with the local receipt time before
being retained (`onMetric` retains the stamped metric in `metrics` state,
`onProgress` merges the stamped event so the progress record carries its
timestamp). -/
theorem c7_event_timestamp (now : String) (logs : List LogEntry)
    (e : LogEntry) (m : Metric) (pe : ProgressEvent) (prev : ProgressState)
    (acc : MetricAccum) (isRegression : Bool) :
    (trainingOnLog now logs e = logs ++ [stampLog now e] ∧
      analyzeHandleLog now logs e = logs ++ [stampLog now e] ∧
      cleanOnLog now logs e = logs ++ [stampLog now e]) ∧
    ((stampLog now e).timestamp ≠ none ∧
      (stampMetric now m).timestamp ≠ none ∧
      (trainingOnMetric isRegression now acc m).lastMetric =
        some (stampMetric now m) ∧
      (trainingOnProgress now prev pe).timestamp ≠ none) ∧
    (e.timestamp = none → stampLog now e = { e with timestamp := some now }) ∧
    (m.timestamp = none →
      stampMetric now m = { m with timestamp := some now }) ∧
    (pe.timestamp = none →
      (trainingOnProgress now prev pe).timestamp = some now) := by
  refine ⟨⟨rfl, rfl, rfl⟩,
    ⟨stampLog_timestamp_ne_none now e, stampMetric_timestamp_ne_none now m,
      rfl, ?_⟩, ?_, ?_, ?_⟩
  · cases hsp : (stampProgress now pe).timestamp with
    | none => exact absurd hsp (stampProgress_timestamp_ne_none now pe)
    | some v => simp [trainingOnProgress, mergeProgress, hsp, Option.orElse]
  · intro h
    simp [stampLog, jsFalsyStr, h]
  · intro h
    simp [stampMetric, jsFalsyStr, h]
  · intro h
    simp [trainingOnProgress, mergeProgress, stampProgress, jsFalsyStr, h,
      Option.orElse]

/-- Claim C8, counterexample: with `current_step = 5` and
`total_steps = -1` (and the initial falsy `epoch` / `total_epochs` of 0),
the rendered percentage is `-500`, while the spec's formula — treating any
`totalSteps <= 0` as 1 — yields `500`: the code's `|| 1` guard replaces
only a zero (or absent) denominator, not a negative one. -/
theorem c8_counterexample :
    progressBarPercent (trainingOnProgress "t0" trainingInitialProgress
      { current_step := some 5, total_steps := some (-1) }) = -500 ∧
    specProgressPercent 5 (-1) = 500 ∧
    progressBarPercent (trainingOnProgress "t0" trainingInitialProgress
        { current_step := some 5, total_steps := some (-1) }) ≠
      specProgressPercent 5 (-1) := by
  refine ⟨?_, ?_, ?_⟩ <;>
    norm_num [progressBarPercent, specProgressPercent, progressBarNum,
      progressBarDen, jsTruthyOr, trainingOnProgress, mergeProgress,
      stampProgress, trainingInitialProgress, jsFalsyStr, Option.orElse]

/-- Claim C8, amended: the rendered denominator is never zero (so the
percentage is total): an absent or zero `total_epochs` falls through to
`total_steps`, and an absent or zero `total_steps` falls through to the
constant 1 — but a negative `total_steps` is used as-is rather than being
treated as 1. -/
theorem c8_amended (p : ProgressState) :
    progressBarDen p ≠ 0 ∧
    (p.total_epochs = some 0 ∨ p.total_epochs = none →
      p.total_steps = some 0 ∨ p.total_steps = none → progressBarDen p = 1) ∧
    (∀ k : Int, p.total_epochs = some 0 ∨ p.total_epochs = none →
      p.total_steps = some k → k ≠ 0 → progressBarDen p = k) := by
  refine ⟨?_, ?_, ?_⟩
  · exact jsTruthyOr_ne_zero _ _ (jsTruthyOr_ne_zero _ _ one_ne_zero)
  · rintro (h | h) (h' | h') <;> simp [progressBarDen, jsTruthyOr, h, h']
  · rintro k (h | h) h' hk <;> simp [progressBarDen, jsTruthyOr, h, h', hk]

/-- Claim C9, counterexample: with one previously accumulated log entry on
the Clean page, a user-initiated cleaning start / retry (status
`CLEANING_FAILED`) replaces the log list with two fresh client entries:
the earlier entry is removed before page unmount. -/
theorem c9_counterexample :
    cleanOnLog "t1" [] { type := "log", message := "hello" } =
      [{ type := "log", message := "hello", timestamp := some "t1" }] ∧
    cleanStartCleaningLogs CLEANING_FAILED "t2" "t3"
        [{ type := "log", message := "hello", timestamp := some "t1" }] =
      [{ type := "CLIENT",
         message := "Resetting state for new cleaning run...",
         timestamp := some "t2" },
       { type := "CLIENT", message := "Cleaning task requested...",
         timestamp := some "t3" }] ∧
    ({ type := "log", message := "hello", timestamp := some "t1" } :
        LogEntry) ∉
      cleanStartCleaningLogs CLEANING_FAILED "t2" "t3"
        [{ type := "log", message := "hello", timestamp := some "t1" }] := by
  refine ⟨?_, ?_, ?_⟩ <;> decide

/-- Claim C9, amended: every `Log` / `ClientNote` event appends exactly one
entry at the tail of the displayed list on each page (so previous entries
and their order are preserved); however a user-initiated cleaning start or
retry on the Clean page resets the list to two fresh client entries,
discarding everything accumulated before; in any other status the start
handler leaves the list unchanged. -/
theorem c9_amended (now now1 now2 : String) (logs : List LogEntry)
    (e : LogEntry) (s : RunStatus) :
    trainingOnLog now logs e = logs ++ [stampLog now e] ∧
    analyzeHandleLog now logs e = logs ++ [stampLog now e] ∧
    cleanOnLog now logs e = logs ++ [stampLog now e] ∧
    cleanStartCleaningLogs READY now1 now2 logs =
      [{ type := "CLIENT",
         message := "Resetting state for new cleaning run...",
         timestamp := some now1 },
       { type := "CLIENT", message := "Cleaning task requested...",
         timestamp := some now2 }] ∧
    cleanStartCleaningLogs CLEANING_FAILED now1 now2 logs =
      [{ type := "CLIENT",
         message := "Resetting state for new cleaning run...",
         timestamp := some now1 },
       { type := "CLIENT", message := "Cleaning task requested...",
         timestamp := some now2 }] ∧
    (s ≠ READY → s ≠ CLEANING_FAILED →
      cleanStartCleaningLogs s now1 now2 logs = logs) := by
  refine ⟨rfl, rfl, rfl, by simp [cleanStartCleaningLogs],
    by simp [cleanStartCleaningLogs], ?_⟩
  intro h1 h2
  simp [cleanStartCleaningLogs, h1, h2]

/-- Claim C10: the shared api client's response interceptor removes both
the access token and the cached user from local storage exactly when the
failed response carries HTTP status 401 (also issuing the login redirect);
any other outcome — another status or a network error with no response —
leaves storage untouched; in every case the promise rejects with an error
carrying the original status. -/
theorem c10_interceptor_401 (storage : ClientStorage) (e : ApiError) :
    (e.status = some 401 →
      (apiResponseErrorInterceptor storage e).1 =
        { access_token := none, user := none }) ∧
    (∀ s, e.status = some s → s ≠ 401 →
      (apiResponseErrorInterceptor storage e).1 = storage) ∧
    (e.status = none → (apiResponseErrorInterceptor storage e).1 = storage) ∧
    (apiResponseErrorInterceptor storage e).2.1 = apiErrorIs401 e ∧
    (apiResponseErrorInterceptor storage e).2.2.status = e.status := by
  refine ⟨?_, ?_, ?_, ?_, ?_⟩
  · intro h
    simp [apiResponseErrorInterceptor, apiErrorIs401, h]
  · intro s hs hne
    simp [apiResponseErrorInterceptor, apiErrorIs401, hs, hne]
  · intro h
    simp [apiResponseErrorInterceptor, apiErrorIs401, h]
  · rfl
  · cases h : e.status with
    | none => simp [apiResponseErrorInterceptor, h]
    | some s =>
        by_cases h5 : s ≥ 500 <;>
          simp [apiResponseErrorInterceptor, h, h5]

/-- Claim C3: starting from any reachable chart state (primary labels
within the 150-point cap — an invariant of the accumulator), feeding two
`Metric` events whose resolved step labels coincide makes the second event
write its four values in place at the first event's label index: the label
lists of both series are unchanged and every dataset keeps its length. -/
theorem c3_chart_upsert (isRegression : Bool) (now1 now2 : String)
    (acc acc1 acc2 : MetricAccum) (m1 m2 : Metric) (L : Int)
    (hacc1 : acc1 = trainingOnMetric isRegression now1 acc m1)
    (hacc2 : acc2 = trainingOnMetric isRegression now2 acc1 m2)
    (hL : L = resolveStepLabel acc.progress m1)
    (hlen : acc.chart.primary.labels.length ≤ maxPoints)
    (hsame : resolveStepLabel acc1.progress m2 = L) :
    ∃ i, acc1.chart.primary.labels.indexOf? L = some i ∧
      i < acc1.chart.primary.labels.length ∧
      acc2.chart.primary.labels = acc1.chart.primary.labels ∧
      acc2.chart.secondary.labels = acc1.chart.secondary.labels ∧
      acc2.chart.primary.train =
        acc1.chart.primary.train.set i (primaryTrainValue isRegression m2) ∧
      acc2.chart.primary.val =
        acc1.chart.primary.val.set i (primaryValValue isRegression m2) ∧
      acc2.chart.secondary.train =
        acc1.chart.secondary.train.set i (secondaryTrainValue isRegression m2) ∧
      acc2.chart.secondary.val =
        acc1.chart.secondary.val.set i (secondaryValValue isRegression m2) ∧
      acc2.chart.primary.train.length = acc1.chart.primary.train.length ∧
      acc2.chart.primary.val.length = acc1.chart.primary.val.length ∧
      acc2.chart.secondary.train.length = acc1.chart.secondary.train.length ∧
      acc2.chart.secondary.val.length = acc1.chart.secondary.val.length := by
  subst hacc1 hacc2 hL
  obtain ⟨i, hfound, hle⟩ :=
    step_label_found acc.chart (resolveStepLabel acc.progress m1)
      (primaryTrainValue isRegression m1) (primaryValValue isRegression m1)
      (secondaryTrainValue isRegression m1)
      (secondaryValValue isRegression m1) hlen
  rw [← trainingOnMetric_chart isRegression now1 acc m1] at hfound hle
  refine ⟨i, hfound, indexOf?_lt_length hfound, ?_⟩
  have h2 := trainingOnMetric_chart isRegression now2
    (trainingOnMetric isRegression now1 acc m1) m2
  rw [hsame] at h2
  rw [h2, upsertEvict_found _ _ _ _ hfound hle]
  simp [List.length_set]

/-- Claim C4: folding 200 metric events with pairwise distinct resolved
step labels into the fresh Training accumulator leaves exactly 150 points
in each chart series; the retained labels and values are those of the 150
most recent events in arrival order (the 50 oldest having been shifted off
the front). -/
theorem c4_eviction_bound (isRegression : Bool) (now : String)
    (es : List Metric) (hlen : es.length = 200)
    (hnodup : (labelTrace none es).Nodup) :
    (foldMetrics isRegression now trainingInitialAccum es).chart.primary.labels
      = (labelTrace none es).drop 50 ∧
    (foldMetrics isRegression now trainingInitialAccum
      es).chart.secondary.labels = (labelTrace none es).drop 50 ∧
    (foldMetrics isRegression now trainingInitialAccum
      es).chart.primary.labels.length = 150 ∧
    (foldMetrics isRegression now trainingInitialAccum
      es).chart.secondary.labels.length = 150 ∧
    (foldMetrics isRegression now trainingInitialAccum es).chart.primary.train
      = (es.map (primaryTrainValue isRegression)).drop 50 ∧
    (foldMetrics isRegression now trainingInitialAccum es).chart.primary.val
      = (es.map (primaryValValue isRegression)).drop 50 ∧
    (foldMetrics isRegression now trainingInitialAccum es).chart.secondary.train
      = (es.map (secondaryTrainValue isRegression)).drop 50 ∧
    (foldMetrics isRegression now trainingInitialAccum es).chart.secondary.val
      = (es.map (secondaryValValue isRegression)).drop 50 := by
  have h := foldMetrics_fresh isRegression now es trainingInitialAccum
    ⟨rfl, rfl, rfl, rfl, rfl⟩ (by decide) hnodup (by simp [trainingInitialAccum,
      initialMetricData, initialChartData])
  obtain ⟨⟨i1, i2⟩, ⟨i3, i4⟩, ⟨i5, i6⟩⟩ := h
  have htrace : (labelTrace none es).rtake maxPoints =
      (labelTrace none es).drop 50 := by
    simp only [List.rtake, labelTrace_length, hlen, maxPoints]
  have hmap : ∀ f : Metric → Option Int,
      (es.map f).rtake maxPoints = (es.map f).drop 50 := by
    intro f
    simp only [List.rtake, List.length_map, hlen, maxPoints]
  have hlens : ((labelTrace none es).drop 50).length = 150 := by
    simp [labelTrace_length, hlen]
  have e1 : (foldMetrics isRegression now trainingInitialAccum
      es).chart.primary.labels = (labelTrace none es).drop 50 := by
    rw [i1]; simpa using htrace
  have e2 : (foldMetrics isRegression now trainingInitialAccum
      es).chart.secondary.labels = (labelTrace none es).drop 50 := by
    rw [i2]; simpa using htrace
  refine ⟨e1, e2, ?_, ?_, ?_, ?_, ?_, ?_⟩
  · rw [e1]; exact hlens
  · rw [e2]; exact hlens
  · rw [i3]; simpa using hmap _
  · rw [i4]; simpa using hmap _
  · rw [i5]; simpa using hmap _
  · rw [i6]; simpa using hmap _

set_option maxRecDepth 20000 in
/-- Claim C4, witness: 200 concrete sequential metric events with epochs
0 to 199. -/
theorem c4_witness :
    ((sequentialMetricEvents 200).length = 200 ∧
      (labelTrace none (sequentialMetricEvents 200)).Nodup) ∧
    ((foldMetrics false "t" trainingInitialAccum
        (sequentialMetricEvents 200)).chart.primary.labels
      = (labelTrace none (sequentialMetricEvents 200)).drop 50 ∧
    (foldMetrics false "t" trainingInitialAccum
        (sequentialMetricEvents 200)).chart.secondary.labels
      = (labelTrace none (sequentialMetricEvents 200)).drop 50 ∧
    (foldMetrics false "t" trainingInitialAccum
        (sequentialMetricEvents 200)).chart.primary.labels.length = 150 ∧
    (foldMetrics false "t" trainingInitialAccum
        (sequentialMetricEvents 200)).chart.secondary.labels.length = 150 ∧
    (foldMetrics false "t" trainingInitialAccum
        (sequentialMetricEvents 200)).chart.primary.train
      = ((sequentialMetricEvents 200).map (primaryTrainValue false)).drop 50 ∧
    (foldMetrics false "t" trainingInitialAccum
        (sequentialMetricEvents 200)).chart.primary.val
      = ((sequentialMetricEvents 200).map (primaryValValue false)).drop 50 ∧
    (foldMetrics false "t" trainingInitialAccum
        (sequentialMetricEvents 200)).chart.secondary.train
      = ((sequentialMetricEvents 200).map
          (secondaryTrainValue false)).drop 50 ∧
    (foldMetrics false "t" trainingInitialAccum
        (sequentialMetricEvents 200)).chart.secondary.val
      = ((sequentialMetricEvents 200).map
          (secondaryValValue false)).drop 50) := by
  have h1 : (sequentialMetricEvents 200).length = 200 := by decide
  have h2 : (labelTrace none (sequentialMetricEvents 200)).Nodup := by decide
  exact ⟨⟨h1, h2⟩, c4_eviction_bound false "t" _ h1 h2⟩

/-- Claim C3, witness: two concrete epoch-1 metric events fed into the
fresh Training accumulator. -/
theorem c3_witness :
    ((1 : Int) = resolveStepLabel trainingInitialAccum.progress metricEventA ∧
      trainingInitialAccum.chart.primary.labels.length ≤ maxPoints ∧
      resolveStepLabel
        (trainingOnMetric false "t1" trainingInitialAccum
          metricEventA).progress metricEventB = 1) ∧
    (∃ i,
      (trainingOnMetric false "t1" trainingInitialAccum
        metricEventA).chart.primary.labels.indexOf? 1 = some i ∧
      i < (trainingOnMetric false "t1" trainingInitialAccum
        metricEventA).chart.primary.labels.length ∧
      (trainingOnMetric false "t2" (trainingOnMetric false "t1"
          trainingInitialAccum metricEventA) metricEventB).chart.primary.labels
        = (trainingOnMetric false "t1" trainingInitialAccum
          metricEventA).chart.primary.labels ∧
      (trainingOnMetric false "t2" (trainingOnMetric false "t1"
          trainingInitialAccum metricEventA)
          metricEventB).chart.secondary.labels
        = (trainingOnMetric false "t1" trainingInitialAccum
          metricEventA).chart.secondary.labels ∧
      (trainingOnMetric false "t2" (trainingOnMetric false "t1"
          trainingInitialAccum metricEventA) metricEventB).chart.primary.train
        = ((trainingOnMetric false "t1" trainingInitialAccum
            metricEventA).chart.primary.train).set i
            (primaryTrainValue false metricEventB) ∧
      (trainingOnMetric false "t2" (trainingOnMetric false "t1"
          trainingInitialAccum metricEventA) metricEventB).chart.primary.val
        = ((trainingOnMetric false "t1" trainingInitialAccum
            metricEventA).chart.primary.val).set i
            (primaryValValue false metricEventB) ∧
      (trainingOnMetric false "t2" (trainingOnMetric false "t1"
          trainingInitialAccum metricEventA) metricEventB).chart.secondary.train
        = ((trainingOnMetric false "t1" trainingInitialAccum
            metricEventA).chart.secondary.train).set i
            (secondaryTrainValue false metricEventB) ∧
      (trainingOnMetric false "t2" (trainingOnMetric false "t1"
          trainingInitialAccum metricEventA) metricEventB).chart.secondary.val
        = ((trainingOnMetric false "t1" trainingInitialAccum
            metricEventA).chart.secondary.val).set i
            (secondaryValValue false metricEventB) ∧
      (trainingOnMetric false "t2" (trainingOnMetric false "t1"
          trainingInitialAccum metricEventA)
          metricEventB).chart.primary.train.length
        = (trainingOnMetric false "t1" trainingInitialAccum
          metricEventA).chart.primary.train.length ∧
      (trainingOnMetric false "t2" (trainingOnMetric false "t1"
          trainingInitialAccum metricEventA)
          metricEventB).chart.primary.val.length
        = (trainingOnMetric false "t1" trainingInitialAccum
          metricEventA).chart.primary.val.length ∧
      (trainingOnMetric false "t2" (trainingOnMetric false "t1"
          trainingInitialAccum metricEventA)
          metricEventB).chart.secondary.train.length
        = (trainingOnMetric false "t1" trainingInitialAccum
          metricEventA).chart.secondary.train.length ∧
      (trainingOnMetric false "t2" (trainingOnMetric false "t1"
          trainingInitialAccum metricEventA)
          metricEventB).chart.secondary.val.length
        = (trainingOnMetric false "t1" trainingInitialAccum
          metricEventA).chart.secondary.val.length) :=
  ⟨⟨by decide, by decide, by decide⟩,
    c3_chart_upsert false "t1" "t2" trainingInitialAccum _ _ metricEventA
      metricEventB 1 rfl rfl (by decide) (by decide) (by decide)⟩

end LearnLab
